import Mathlib

/-!
Verification of the netlist validation core (`backend/app/validators.py`
and the report/back-compat logic of `backend/app/netlists.py`).

The data model is the JSON document shape: components with pins, nets
with connections.  Rules are pure functions from a netlist to a list of
violations; the runner concatenates their outputs.
-/

namespace PCB

/-- Python `str.upper()`: uppercase every character.  Kernel-reducible
model of the `.upper()` calls in the source. -/
def pyUpper (s : String) : String := String.mk (s.data.map Char.toUpper)

/-- Python `str.lower()`: lowercase every character. -/
def pyLower (s : String) : String := String.mk (s.data.map Char.toLower)

/-- Python `str.strip()`: drop leading and trailing whitespace. -/
def pyStrip (s : String) : String :=
  String.mk (((s.data.dropWhile Char.isWhitespace).reverse.dropWhile
    Char.isWhitespace).reverse)

/-- A pin of a component: object with `id` and `name` fields. -/
structure Pin where
  id : String
  name : String
deriving DecidableEq

/-- A component: `id`, `name`, free-form `type`, and its list of pins. -/
structure Component where
  id : String
  name : String
  type : String
  pins : List Pin
deriving DecidableEq

/-- A connection entry of a net: a `componentId` / `pinId` reference pair. -/
structure Connection where
  componentId : String
  pinId : String
deriving DecidableEq

/-- A net: `id`, `name`, and its list of connections. -/
structure Net where
  id : String
  name : String
  connections : List Connection
deriving DecidableEq

/-- A netlist document: top-level `components` and `nets` sequences. -/
structure Netlist where
  components : List Component
  nets : List Net
deriving DecidableEq

/-- A violation dictionary: `{"rule", "message", "location", "level"}`. -/
structure Violation where
  rule : String
  message : String
  location : String
  level : String
deriving DecidableEq

/-- Factory for violation dictionaries (`_mk` in `validators.py`; the
Python defaults `loc=""`, `level="error"` are passed explicitly here). -/
def _mk (rule : String) (msg : String) (loc : String) (level : String) : Violation :=
  { rule := rule, message := msg, location := loc, level := level }

/-- Rule 1 (`check_names_not_blank`): component, pin and net names must be
non-blank after stripping whitespace. -/
def check_names_not_blank (netlist : Netlist) : List Violation :=
  (netlist.components.flatMap fun comp =>
    (if pyStrip comp.name == "" then
      [_mk "non_blank_names" "Component name blank" ("component:" ++ comp.id) "error"]
    else []) ++
    (comp.pins.flatMap fun pin =>
      if pyStrip pin.name == "" then
        [_mk "non_blank_names" "Pin name blank"
          ("component:" ++ comp.id ++ ".pin:" ++ pin.id) "error"]
      else [])) ++
  (netlist.nets.flatMap fun net =>
    if pyStrip net.name == "" then
      [_mk "non_blank_names" "Net name blank" ("net:" ++ net.id) "error"]
    else [])

/-- All nets explicitly named "GND" (`gnd_nets`, validators.py line 71). -/
def gnd_nets (netlist : Netlist) : List Net :=
  netlist.nets.filter fun n => pyUpper n.name == "GND"

/-- Ids of the GND-named nets (`gnd_net_ids`, validators.py line 75).
The Python set is modelled as a list used only through membership. -/
def gnd_net_ids (netlist : Netlist) : List String :=
  (gnd_nets netlist).map fun n => n.id

/-- The map `component_id → set(net_ids)` built on validators.py lines
78-81, read at a key with default empty set: the set of ids of nets that
hold a connection mentioning `cid`. -/
def connections_by_comp (netlist : Netlist) (cid : String) : List String :=
  (netlist.nets.filter fun net =>
    net.connections.any fun conn => conn.componentId == cid).map fun net => net.id

/-- Whether a component declares a pin named "GND" (validators.py line 89). -/
def has_gnd_pin (comp : Component) : Bool :=
  comp.pins.any fun p => pyUpper p.name == "GND"

/-- Rule 2 (`check_gnd_connections`): components that declare a GND pin
must actually connect to a GND net. -/
def check_gnd_connections (netlist : Netlist) : List Violation :=
  if (gnd_nets netlist).isEmpty then
    [_mk "gnd_present" "Net named \x27GND\x27 missing" "" "error"]
  else
    netlist.components.flatMap fun comp =>
      if pyLower comp.type == "connector" then []
      else if !(has_gnd_pin comp) then []
      else if !((connections_by_comp netlist comp.id).any fun i =>
          (gnd_net_ids netlist).contains i) then
        [_mk "gnd_connected" "Component declares a GND pin but it is unconnected"
          ("component:" ++ comp.id) "error"]
      else []

/-- The set of component ids (`comp_ids`, validators.py line 111). -/
def comp_ids (netlist : Netlist) : List String :=
  netlist.components.map fun c => c.id

/-- The map `component id → set of its pin ids` (`pins_by_comp`,
validators.py lines 112-114).  A Python dict comprehension keeps the last
binding for a duplicated key, hence `getLast?`; the key is only read when
it exists, the `none` branch is dead code. -/
def pins_by_comp (netlist : Netlist) (cid : String) : List String :=
  match (netlist.components.filter fun c => c.id == cid).getLast? with
  | some c => c.pins.map fun p => p.id
  | none => []

/-- Rule 3 (`check_dangling`): detect dangling nets and orphan references. -/
def check_dangling (netlist : Netlist) : List Violation :=
  netlist.nets.flatMap fun net =>
    (net.connections.enum.flatMap fun ic =>
      if !((comp_ids netlist).contains ic.2.componentId) then
        [_mk "dangling_connection"
          ("Net references unknown component \x27" ++ ic.2.componentId ++ "\x27")
          ("net:" ++ net.id ++ "[" ++ toString ic.1 ++ "]") "error"]
      else if !((pins_by_comp netlist ic.2.componentId).contains ic.2.pinId) then
        [_mk "dangling_connection"
          ("Net references unknown pin \x27" ++ ic.2.componentId ++ "." ++ ic.2.pinId ++ "\x27")
          ("net:" ++ net.id ++ "[" ++ toString ic.1 ++ "]") "error"]
      else []) ++
    (if net.connections.length < 2 then
      [_mk "dangling_net" "Net has <2 connections (dangling)" ("net:" ++ net.id) "error"]
    else [])

/-- The rule registry `_RULES` (validators.py lines 157-161). -/
def _RULES : List (Netlist → List Violation) :=
  [check_names_not_blank, check_gnd_connections, check_dangling]

/-- The runner `run_all`: execute all registered rules and concatenate
their results into one flat list (validators.py lines 167-176). -/
def run_all (netlist : Netlist) : List Violation :=
  _RULES.foldl (fun violations rule => violations ++ rule netlist) []

/-- Status derivation of `upload_netlist` (netlists.py line 137):
`status_val = "valid" if not violations else "invalid"`. -/
def derive_status (violations : List Violation) : String :=
  if violations.isEmpty then "valid" else "invalid"

/-!  Spec-side formulations, written from the spec text, to be compared
with the source-derived rule functions above.  -/

/-- Spec formulation of the non-blank-names output for one component:
one violation for the component if its trimmed name is empty, plus one
violation for each pin whose trimmed name is empty. -/
def blankViolsOfComponent (comp : Component) : List Violation :=
  (if pyStrip comp.name == "" then
    [_mk "non_blank_names" "Component name blank" ("component:" ++ comp.id) "error"]
  else []) ++
  (comp.pins.filter fun pin => pyStrip pin.name == "").map fun pin =>
    _mk "non_blank_names" "Pin name blank"
      ("component:" ++ comp.id ++ ".pin:" ++ pin.id) "error"

/-- Spec formulation of the whole non-blank-names rule: exactly one
violation per blank-named component or pin, then exactly one per
blank-named net, and nothing for entities whose trimmed name is
non-empty. -/
def nonBlankNamesSpec (netlist : Netlist) : List Violation :=
  netlist.components.flatMap blankViolsOfComponent ++
  (netlist.nets.filter fun net => pyStrip net.name == "").map fun net =>
    _mk "non_blank_names" "Net name blank" ("net:" ++ net.id) "error"

/-- Spec predicate for the GND-connectivity violation: the component is
not a connector (case-insensitive), declares at least one pin named
"GND" (case-insensitive), and the set of net ids it connects to has
empty intersection with the set of GND-named net ids. -/
def needs_gnd_violation (netlist : Netlist) (comp : Component) : Bool :=
  !(pyLower comp.type == "connector") &&
  has_gnd_pin comp &&
  (connections_by_comp netlist comp.id).all fun i => !((gnd_net_ids netlist).contains i)

/-- Spec formulation of the GND-connectivity output when a GND net
exists: exactly one `gnd_connected` violation per component that needs
one, in component order. -/
def gndConnectedSpec (netlist : Netlist) : List Violation :=
  (netlist.components.filter fun comp => needs_gnd_violation netlist comp).map fun comp =>
    _mk "gnd_connected" "Component declares a GND pin but it is unconnected"
      ("component:" ++ comp.id) "error"

/-- Spec formulation of the per-connection dangling check at position
`idx` of net `netId`: one violation if the `componentId` is unknown, one
violation if the component exists but the `pinId` is unknown among the
pins of that component (component existence checked first), none
otherwise. -/
def connViolSpec (netlist : Netlist) (netId : String) (idx : Nat) (conn : Connection) :
    List Violation :=
  if !((comp_ids netlist).contains conn.componentId) then
    [_mk "dangling_connection"
      ("Net references unknown component \x27" ++ conn.componentId ++ "\x27")
      ("net:" ++ netId ++ "[" ++ toString idx ++ "]") "error"]
  else if !((pins_by_comp netlist conn.componentId).contains conn.pinId) then
    [_mk "dangling_connection"
      ("Net references unknown pin \x27" ++ conn.componentId ++ "." ++ conn.pinId ++ "\x27")
      ("net:" ++ netId ++ "[" ++ toString idx ++ "]") "error"]
  else []

/-!  Report read-back model (netlists.py, `list_netlists` lines 205-224
and `get_netlist` lines 255-262).  The stored `validation` field may be
the structured dict shape, the legacy bare list shape, or absent. -/

/-- The shape of the stored `validation` field as read back from the
database: a dict with optional `status` / `violations` keys, a legacy
bare list of violations, or absent (`None`). -/
inductive StoredValidation where
  | vdict (st : Option String) (viols : Option (List Violation))
  | vlist (viols : List Violation)
  | vmissing
deriving DecidableEq

/-- Status computed by `list_netlists` (netlists.py lines 210-217):
`val.get("status", "unknown")` for a dict, `"invalid" if val else
"valid"` for a list, `"unknown"` otherwise. -/
def list_status : StoredValidation → String
  | .vdict st _ => st.getD "unknown"
  | .vlist viols => if viols.isEmpty then "valid" else "invalid"
  | .vmissing => "unknown"

/-- Status and violations computed by `get_netlist` (netlists.py lines
255-262): a dict contributes `validation.get("status", "unknown")` and
`validation.get("violations", [])`; anything else falls to the truthiness
branch `"invalid" if validation else "valid"` with `validation or []`. -/
def detail_report : StoredValidation → String × List Violation
  | .vdict st viols => (st.getD "unknown", viols.getD [])
  | .vlist viols => (if viols.isEmpty then "valid" else "invalid", viols)
  | .vmissing => ("valid", [])

/-!  Raw-document model for the absent-`pins` failure mode (spec section
7).  A component record may lack its `pins` key; the Python subscription
`comp["pins"]` raises `KeyError` there, modelled as `none`:  a rule
returns `none` exactly when it raises an unhandled fault. -/

/-- A component record whose `pins` key may be absent. -/
structure RawComponent where
  id : String
  name : String
  type : String
  pins : Option (List Pin)
deriving DecidableEq

/-- A netlist document whose component records may lack `pins`. -/
structure RawNetlist where
  components : List RawComponent
  nets : List Net
deriving DecidableEq

/-- `check_names_not_blank` on a raw document: `comp["pins"]` on line 42
of validators.py faults when the key is absent. -/
def check_names_not_blank_raw (netlist : RawNetlist) : Option (List Violation) := do
  let compViols ← netlist.components.mapM fun comp => do
    let pins ← comp.pins
    pure ((if pyStrip comp.name == "" then
        [_mk "non_blank_names" "Component name blank" ("component:" ++ comp.id) "error"]
      else []) ++
      (pins.flatMap fun pin =>
        if pyStrip pin.name == "" then
          [_mk "non_blank_names" "Pin name blank"
            ("component:" ++ comp.id ++ ".pin:" ++ pin.id) "error"]
        else []))
  pure (compViols.flatten ++
    (netlist.nets.flatMap fun net =>
      if pyStrip net.name == "" then
        [_mk "non_blank_names" "Net name blank" ("net:" ++ net.id) "error"]
      else []))

/-- `connections_by_comp` only reads the `nets` part of the document. -/
def connections_by_comp_raw (netlist : RawNetlist) (cid : String) : List String :=
  (netlist.nets.filter fun net =>
    net.connections.any fun conn => conn.componentId == cid).map fun net => net.id

/-- `check_gnd_connections` on a raw document: `comp["pins"]` on line 89
of validators.py faults when the key is absent, but only for components
reached after the early return and the connector skip. -/
def check_gnd_connections_raw (netlist : RawNetlist) : Option (List Violation) :=
  let gndNets := netlist.nets.filter fun n => pyUpper n.name == "GND"
  if gndNets.isEmpty then
    some [_mk "gnd_present" "Net named \x27GND\x27 missing" "" "error"]
  else do
    let gndNetIds := gndNets.map fun n => n.id
    let viols ← netlist.components.mapM fun comp => do
      if pyLower comp.type == "connector" then pure []
      else do
        let pins ← comp.pins
        if !(pins.any fun p => pyUpper p.name == "GND") then pure []
        else if !((connections_by_comp_raw netlist comp.id).any fun i =>
            gndNetIds.contains i) then
          pure [_mk "gnd_connected" "Component declares a GND pin but it is unconnected"
            ("component:" ++ comp.id) "error"]
        else pure []
    pure viols.flatten

/-- `check_dangling` on a raw document: the `pins_by_comp` comprehension
on lines 112-114 of validators.py reads `c["pins"]` of every component,
so it faults as soon as any component lacks the key. -/
def check_dangling_raw (netlist : RawNetlist) : Option (List Violation) := do
  let compIds := netlist.components.map fun c => c.id
  let pinPairs ← netlist.components.mapM fun c => do
    let pins ← c.pins
    pure (c.id, pins.map fun p => p.id)
  let pinsOf := fun cid =>
    match (pinPairs.filter fun pr => pr.1 == cid).getLast? with
    | some pr => pr.2
    | none => []
  pure (netlist.nets.flatMap fun net =>
    (net.connections.enum.flatMap fun ic =>
      if !(compIds.contains ic.2.componentId) then
        [_mk "dangling_connection"
          ("Net references unknown component \x27" ++ ic.2.componentId ++ "\x27")
          ("net:" ++ net.id ++ "[" ++ toString ic.1 ++ "]") "error"]
      else if !((pinsOf ic.2.componentId).contains ic.2.pinId) then
        [_mk "dangling_connection"
          ("Net references unknown pin \x27" ++ ic.2.componentId ++ "." ++ ic.2.pinId ++ "\x27")
          ("net:" ++ net.id ++ "[" ++ toString ic.1 ++ "]") "error"]
      else []) ++
    (if net.connections.length < 2 then
      [_mk "dangling_net" "Net has <2 connections (dangling)" ("net:" ++ net.id) "error"]
    else []))

/-- `run_all` on a raw document: a fault in any rule propagates. -/
def run_all_raw (netlist : RawNetlist) : Option (List Violation) := do
  let v1 ← check_names_not_blank_raw netlist
  let v2 ← check_gnd_connections_raw netlist
  let v3 ← check_dangling_raw netlist
  pure (v1 ++ v2 ++ v3)

/-- A schema-conforming document whose only component lacks the `pins`
key. -/
def pinlessDoc : RawNetlist :=
  { components := [{ id := "C1", name := "X", type := "ic", pins := none }]
    nets := [] }

/-- The same document with the absent `pins` collection treated as
empty, as the spec requires. -/
def pinlessDocDefaulted : Netlist :=
  { components := [{ id := "C1", name := "X", type := "ic", pins := [] }]
    nets := [] }

/-!  General list lemmas used by the rule proofs.  -/

/-- A flatMap of optional singletons is a filter-then-map. -/
theorem flatMap_if_singleton {α β : Type} (l : List α) (p : α → Bool) (f : α → β) :
    (l.flatMap fun a => if p a then [f a] else []) = (l.filter p).map f := by
  induction l with
  | nil => rfl
  | cons a t ih => cases h : p a <;> simp [List.filter_cons, h, ih]

/-- flatMap respects pointwise equality on the list members. -/
theorem flatMap_congr_mem {α β : Type} (l : List α) (f g : α → List β)
    (h : ∀ a ∈ l, f a = g a) : l.flatMap f = l.flatMap g := by
  induction l with
  | nil => rfl
  | cons a t ih =>
    simp only [List.flatMap_cons]
    rw [h a (List.mem_cons_self a t), ih fun b hb => h b (List.mem_cons_of_mem a hb)]

/-- Filtering distributes over flatMap. -/
theorem filter_flatMap_comm {α β : Type} (l : List α) (f : α → List β) (q : β → Bool) :
    (l.flatMap f).filter q = l.flatMap fun a => (f a).filter q := by
  induction l with
  | nil => rfl
  | cons a t ih => simp [List.filter_append, ih]

/-- Boolean De Morgan over a list: no member satisfies `p` iff every
member satisfies `!p`. -/
theorem not_any_eq_all_not {α : Type} (l : List α) (p : α → Bool) :
    (!(l.any p)) = l.all fun a => !(p a) := by
  induction l with
  | nil => rfl
  | cons a t ih => simp [List.any_cons, List.all_cons, Bool.not_or, ih]

/-!  Claim theorems.  -/

/-- C1: the report status is "valid" exactly when the violation list
produced by running all rules is empty, and "invalid" otherwise. -/
theorem report_status_valid_iff_empty (netlist : Netlist) :
    (derive_status (run_all netlist) = "valid" ↔ run_all netlist = []) ∧
    (derive_status (run_all netlist) = "invalid" ↔ run_all netlist ≠ []) := by
  cases h : run_all netlist <;> simp [derive_status, h]

/-- C2: the runner output is the concatenation, in registration order
(non-blank-names, then GND-connectivity, then dangling-references), of
the output of each rule: nothing is deduplicated, sorted, or suppressed
by earlier rules. -/
theorem run_all_eq_rules_concat (netlist : Netlist) :
    run_all netlist =
      check_names_not_blank netlist ++ check_gnd_connections netlist ++
        check_dangling netlist := by
  simp [run_all, _RULES, List.append_assoc]

/-- C3: the non-blank-names rule emits exactly one `non_blank_names`
violation with level `error` at the offending entity for each component,
pin, or net whose stripped name is empty, and nothing for entities with
non-blank names. -/
theorem check_names_not_blank_meets_spec (netlist : Netlist) :
    check_names_not_blank netlist = nonBlankNamesSpec netlist := by
  unfold check_names_not_blank nonBlankNamesSpec
  congr 1
  · exact flatMap_congr_mem _ _ _ fun comp _ => by
      unfold blankViolsOfComponent
      rw [flatMap_if_singleton]
  · exact flatMap_if_singleton _ _ _

/-- C4: when no net is named "GND" (case-insensitively), the
GND-connectivity rule emits exactly one `gnd_present` violation with no
location and nothing else. -/
theorem gnd_missing_single_violation (netlist : Netlist)
    (h : ∀ n ∈ netlist.nets, ¬ pyUpper n.name = "GND") :
    check_gnd_connections netlist =
      [_mk "gnd_present" "Net named \x27GND\x27 missing" "" "error"] := by
  have hg : gnd_nets netlist = [] := by
    simp only [gnd_nets, List.filter_eq_nil_iff]
    intro n hn
    simpa using h n hn
  simp [check_gnd_connections, hg]

/-- Witness for C4 at a concrete netlist with one non-GND net. -/
theorem gnd_missing_single_violation_witness :
    (∀ n ∈ (Netlist.mk [] [Net.mk "N1" "VCC" []]).nets, ¬ pyUpper n.name = "GND") ∧
    check_gnd_connections (Netlist.mk [] [Net.mk "N1" "VCC" []]) =
      [_mk "gnd_present" "Net named \x27GND\x27 missing" "" "error"] :=
  ⟨by decide, gnd_missing_single_violation (Netlist.mk [] [Net.mk "N1" "VCC" []]) (by decide)⟩

/-- Pointwise form of the per-component body of the GND-connectivity
rule: the skip / skip / emit chain amounts to a single guard,
`needs_gnd_violation`. -/
theorem gnd_body_eq (netlist : Netlist) (c : Component) :
    (if pyLower c.type == "connector" then ([] : List Violation)
     else if !(has_gnd_pin c) then []
     else if !((connections_by_comp netlist c.id).any fun i =>
         (gnd_net_ids netlist).contains i) then
       [_mk "gnd_connected" "Component declares a GND pin but it is unconnected"
         ("component:" ++ c.id) "error"]
     else []) =
    (if needs_gnd_violation netlist c then
       [_mk "gnd_connected" "Component declares a GND pin but it is unconnected"
         ("component:" ++ c.id) "error"]
     else []) := by
  unfold needs_gnd_violation
  rw [← not_any_eq_all_not]
  cases h1 : pyLower c.type == "connector" <;>
    cases h2 : has_gnd_pin c <;>
      cases h3 : (connections_by_comp netlist c.id).any fun i =>
        (gnd_net_ids netlist).contains i <;>
    simp [h1, h2, h3]

/-- C5: when a GND-named net exists, the GND-connectivity rule emits
exactly one `gnd_connected` violation at `component:<id>` per
non-connector component that declares a GND-named pin and whose
connected net ids meet no GND net id, and nothing else; connector-type
components never yield one. -/
theorem gnd_connected_characterisation (netlist : Netlist)
    (h : ∃ n ∈ netlist.nets, pyUpper n.name = "GND") :
    check_gnd_connections netlist = gndConnectedSpec netlist := by
  obtain ⟨n, hn, hup⟩ := h
  have hmem : n ∈ gnd_nets netlist := by
    simp [gnd_nets, List.mem_filter, hn, hup]
  have hg : (gnd_nets netlist).isEmpty = false := by
    cases hgn : gnd_nets netlist with
    | nil => rw [hgn] at hmem; simp at hmem
    | cons a t => simp
  unfold check_gnd_connections gndConnectedSpec
  simp only [hg, Bool.false_eq_true, if_false]
  rw [flatMap_congr_mem _ _ _ fun c _ => gnd_body_eq netlist c]
  exact flatMap_if_singleton _ _ _

/-- Witness for C5 at a netlist with a GND net and one unconnected
non-connector component declaring a GND pin. -/
theorem gnd_connected_characterisation_witness :
    (∃ n ∈ (Netlist.mk [Component.mk "U1" "U1" "ic" [Pin.mk "P1" "GND"]]
        [Net.mk "N1" "GND" []]).nets, pyUpper n.name = "GND") ∧
    check_gnd_connections (Netlist.mk [Component.mk "U1" "U1" "ic" [Pin.mk "P1" "GND"]]
        [Net.mk "N1" "GND" []]) =
      gndConnectedSpec (Netlist.mk [Component.mk "U1" "U1" "ic" [Pin.mk "P1" "GND"]]
        [Net.mk "N1" "GND" []]) :=
  ⟨by decide,
   gnd_connected_characterisation
     (Netlist.mk [Component.mk "U1" "U1" "ic" [Pin.mk "P1" "GND"]]
       [Net.mk "N1" "GND" []]) (by decide)⟩

/-- C6: the `dangling_connection` part of the dangling-references rule
is exactly one violation at `net:<id>[<idx>]` per connection whose
component id is unknown, or whose component exists but whose pin id is
unknown among that component, the component check coming first; the two
cases never both fire for one connection (at most one violation per
connection). -/
theorem dangling_connection_characterisation (netlist : Netlist) :
    ((check_dangling netlist).filter fun v => v.rule == "dangling_connection") =
      (netlist.nets.flatMap fun net =>
        net.connections.enum.flatMap fun ic => connViolSpec netlist net.id ic.1 ic.2) ∧
    (∀ (netId : String) (idx : Nat) (conn : Connection),
      (connViolSpec netlist netId idx conn).length ≤ 1) := by
  have hne : (("dangling_net" : String) == "dangling_connection") = false := by decide
  constructor
  · unfold check_dangling
    rw [filter_flatMap_comm]
    refine flatMap_congr_mem _ _ _ fun net _ => ?_
    rw [List.filter_append, filter_flatMap_comm]
    have hnet : ((if net.connections.length < 2 then
        [_mk "dangling_net" "Net has <2 connections (dangling)" ("net:" ++ net.id) "error"]
      else []).filter fun v => v.rule == "dangling_connection") = [] := by
      split <;> simp [_mk, List.filter, hne]
    rw [hnet, List.append_nil]
    refine flatMap_congr_mem _ _ _ fun ic _ => ?_
    unfold connViolSpec
    cases h1 : (comp_ids netlist).contains ic.2.componentId with
    | false => simp [h1, _mk, List.filter]
    | true =>
      cases h2 : (pins_by_comp netlist ic.2.componentId).contains ic.2.pinId with
      | false => simp [h1, h2, _mk, List.filter]
      | true => simp [h1, h2]
  · intro netId idx conn
    unfold connViolSpec
    split
    · simp
    · split <;> simp

/-- C7: the `dangling_net` part of the dangling-references rule is
exactly one violation at `net:<id>` per net with fewer than two
connections and nothing for nets with two or more, independently of the
per-connection checks. -/
theorem dangling_net_characterisation (netlist : Netlist) :
    ((check_dangling netlist).filter fun v => v.rule == "dangling_net") =
      (netlist.nets.filter fun net => decide (net.connections.length < 2)).map fun net =>
        _mk "dangling_net" "Net has <2 connections (dangling)" ("net:" ++ net.id) "error" := by
  have hne : (("dangling_connection" : String) == "dangling_net") = false := by decide
  unfold check_dangling
  rw [filter_flatMap_comm, ← flatMap_if_singleton]
  refine flatMap_congr_mem _ _ _ fun net _ => ?_
  rw [List.filter_append]
  have hconn : ((net.connections.enum.flatMap fun ic =>
      if !((comp_ids netlist).contains ic.2.componentId) then
        [_mk "dangling_connection"
          ("Net references unknown component \x27" ++ ic.2.componentId ++ "\x27")
          ("net:" ++ net.id ++ "[" ++ toString ic.1 ++ "]") "error"]
      else if !((pins_by_comp netlist ic.2.componentId).contains ic.2.pinId) then
        [_mk "dangling_connection"
          ("Net references unknown pin \x27" ++ ic.2.componentId ++ "." ++ ic.2.pinId ++ "\x27")
          ("net:" ++ net.id ++ "[" ++ toString ic.1 ++ "]") "error"]
      else []).filter fun v => v.rule == "dangling_net") = [] := by
    rw [filter_flatMap_comm]
    refine List.flatMap_eq_nil_iff.mpr fun ic _ => ?_
    cases h1 : (comp_ids netlist).contains ic.2.componentId with
    | false => simp [h1, _mk, List.filter, hne]
    | true =>
      cases h2 : (pins_by_comp netlist ic.2.componentId).contains ic.2.pinId with
      | false => simp [h1, h2, _mk, List.filter, hne]
      | true => simp [h1, h2]
  rw [hconn, List.nil_append]
  by_cases h : net.connections.length < 2 <;> simp [h, _mk, List.filter]

/-- C8: a schema-passing document whose component record lacks its
`pins` list makes the rules raise an unhandled lookup fault (modelled as
`none`) instead of treating the absent collection as empty; with the
collection defaulted to empty the same document evaluates cleanly.  The
code therefore contradicts the claimed no-crash behaviour. -/
theorem absent_pins_fault_demo :
    run_all_raw pinlessDoc = none ∧
    check_names_not_blank_raw pinlessDoc = none ∧
    check_dangling_raw pinlessDoc = none ∧
    run_all pinlessDocDefaulted =
      [_mk "gnd_present" "Net named \x27GND\x27 missing" "" "error"] :=
  ⟨rfl, rfl, rfl, rfl⟩

/-- C9: both read-back endpoints accept the two historical report
shapes: a structured dict uses its `status` field directly, and a bare
violation list infers `invalid` exactly when non-empty. -/
theorem read_back_compat :
    (∀ (st : String) (viols : Option (List Violation)),
      list_status (StoredValidation.vdict (some st) viols) = st) ∧
    (∀ viols : List Violation,
      list_status (StoredValidation.vlist viols) =
        if viols = [] then "valid" else "invalid") ∧
    (∀ (st : String) (viols : List Violation),
      detail_report (StoredValidation.vdict (some st) (some viols)) = (st, viols)) ∧
    (∀ viols : List Violation,
      detail_report (StoredValidation.vlist viols) =
        ((if viols = [] then "valid" else "invalid"), viols)) := by
  refine ⟨fun st viols => rfl, fun viols => ?_, fun st viols => rfl, fun viols => ?_⟩ <;>
    cases viols <;> simp [list_status, detail_report]

/-- A netlist whose ground net and ground pin are named " GND ": the
names match "GND" only after stripping surrounding whitespace.  The pin
is even connected to that net. -/
def untrimmedGndDoc : Netlist :=
  { components := [{ id := "U1", name := "U1", type := "ic",
                     pins := [{ id := "P1", name := " GND " }] }]
    nets := [{ id := "N1", name := " GND ",
               connections := [{ componentId := "U1", pinId := "P1" },
                               { componentId := "U1", pinId := "P1" }] }] }

/-- C10: the case-insensitive GND matching does not strip whitespace: a
net whose uppercased name is not exactly "GND" is never collected as a
ground net and a component none of whose pins uppercase exactly to "GND"
is never treated as declaring a ground pin, even when the names match
"GND" after stripping (witnessed by " GND "); on such a document the
rule reports the ground net as missing. -/
theorem gnd_match_untrimmed :
    (∀ (netlist : Netlist) (n : Net), ¬ pyUpper n.name = "GND" → n ∉ gnd_nets netlist) ∧
    (∀ comp : Component,
      (∀ p ∈ comp.pins, ¬ pyUpper p.name = "GND") → has_gnd_pin comp = false) ∧
    (pyUpper (pyStrip " GND ") = "GND" ∧ ¬ pyUpper " GND " = "GND") ∧
    check_gnd_connections untrimmedGndDoc =
      [_mk "gnd_present" "Net named \x27GND\x27 missing" "" "error"] := by
  refine ⟨fun netlist n hup hmem => ?_, fun comp hp => ?_, by decide, rfl⟩
  · rw [gnd_nets, List.mem_filter] at hmem
    exact hup (by simpa using hmem.2)
  · rw [has_gnd_pin, List.any_eq_false]
    intro p hmem
    simpa using hp p hmem

/-- Witness for C10 at the " GND " document. -/
theorem gnd_match_untrimmed_witness :
    (Net.mk "N1" " GND " [Connection.mk "U1" "P1", Connection.mk "U1" "P1"]) ∉
      gnd_nets untrimmedGndDoc ∧
    has_gnd_pin (Component.mk "U1" "U1" "ic" [Pin.mk "P1" " GND "]) = false :=
  ⟨gnd_match_untrimmed.1 untrimmedGndDoc _ (by decide),
   gnd_match_untrimmed.2.1 _ (by decide)⟩

end PCB
